import Mathlib

/-!
Verification of the mesh conversion and cleanup algorithms of
`scripts/blender_mesh_converter.py`.

The script stores a mesh as two flat lists: `triangles.v`, a flattened list
of vertex coordinates (x, y, z triples), and `triangles.f`, a flattened list
of triangle vertex indices.  Coordinates are modelled as rationals (the
source uses IEEE doubles); indices as integers (Python ints).  The four
operations — JSON→OBJ export, OBJ→JSON import with reconciliation against a
reference mesh, edge trimming, and edge smoothing — are translated below as
pure functions.  File I/O and printing are dropped; the interactive
"Continue anyway? (y/N)" prompts of `obj_to_json` become boolean parameters
(`confirm_topology`, `confirm_geo`), and each abort path (`sys.exit(1)`, an
uncaught exception, or an early return that produces no output file) becomes
an `Except.error` outcome.
-/

deriving instance DecidableEq for Except

/-- A mesh: flattened vertex coordinates and flattened face indices,
mirroring the `triangles.v` / `triangles.f` arrays of the JSON schema. -/
structure Mesh where
  v : List ℚ
  f : List ℤ
  deriving DecidableEq, Repr

/-- Group a flat list into consecutive triples, as the source's
`for i in range(0, len(l), 3)` loops do.  A leftover tail of fewer than
three elements is dropped (the source would raise `IndexError`; all claims
are stated for valid meshes whose list lengths are divisible by 3). -/
def chunks3 {α : Type} : List α → List (α × α × α)
  | a :: b :: c :: rest => (a, b, c) :: chunks3 rest
  | _ => []

/-- Flatten a list of triples back into a flat list. -/
def flatten3 {α : Type} : List (α × α × α) → List α
  | [] => []
  | (a, b, c) :: rest => a :: b :: c :: flatten3 rest

/-- The x coordinates of a flattened vertex list (`vertices[i]` for
`i ≡ 0 mod 3`). -/
def xsOf (l : List ℚ) : List ℚ := (chunks3 l).map (fun t => t.1)

/-- The y coordinates of a flattened vertex list (`vertices[i+1]`). -/
def ysOf (l : List ℚ) : List ℚ := (chunks3 l).map (fun t => t.2.1)

/-- The source's running-minimum fold: `min_x = float('inf')` followed by
`min_x = min(min_x, x)` over the list.  `⊤` plays the role of `+inf`; an
empty list leaves the initial infinity untouched. -/
def foldMin (l : List ℚ) : WithTop ℚ :=
  l.foldl (fun m a => min m (a : WithTop ℚ)) ⊤

/-- The source's running-maximum fold from `float('-inf')`; `⊥` plays the
role of `-inf`. -/
def foldMax (l : List ℚ) : WithBot ℚ :=
  l.foldl (fun m a => max m (a : WithBot ℚ)) ⊥

/-- The finite value of the x-minimum bound of a mesh.  For a mesh with at
least one vertex this is exactly the source's `min_x`; the default `0` is
returned only for an empty vertex list, where the source's `+inf` value is
never consumed in any result-relevant way. -/
def meshMinX (m : Mesh) : ℚ := (foldMin (xsOf m.v)).untop' 0

/-- The finite value of the x-maximum bound of a mesh (`max_x`). -/
def meshMaxX (m : Mesh) : ℚ := (foldMax (xsOf m.v)).unbot' 0

/-- The finite value of the y-minimum bound of a mesh (`min_y`). -/
def meshMinY (m : Mesh) : ℚ := (foldMin (ysOf m.v)).untop' 0

/-- The finite value of the y-maximum bound of a mesh (`max_y`). -/
def meshMaxY (m : Mesh) : ℚ := (foldMax (ysOf m.v)).unbot' 0

/-! ## EdgeTrimmer (`trim_edges`) -/

/-- Failure outcomes of `trim_edges`.  The only abort path of the source is
the unguarded `faces_removed / num_faces_original` in its diagnostic print,
which raises `ZeroDivisionError` when the input face list is empty. -/
inductive TrimError where
  | zeroDivisionError
  deriving DecidableEq, Repr

/-- The inset x-minimum: `new_min_x = min_x + (max_x - min_x) * trim_percent`. -/
def trimMinX (m : Mesh) (trim_percent : ℚ) : ℚ :=
  meshMinX m + (meshMaxX m - meshMinX m) * trim_percent

/-- The inset x-maximum: `new_max_x = max_x - (max_x - min_x) * trim_percent`. -/
def trimMaxX (m : Mesh) (trim_percent : ℚ) : ℚ :=
  meshMaxX m - (meshMaxX m - meshMinX m) * trim_percent

/-- The inset y-minimum: `new_min_y = min_y + (max_y - min_y) * trim_percent`. -/
def trimMinY (m : Mesh) (trim_percent : ℚ) : ℚ :=
  meshMinY m + (meshMaxY m - meshMinY m) * trim_percent

/-- The inset y-maximum: `new_max_y = max_y - (max_y - min_y) * trim_percent`. -/
def trimMaxY (m : Mesh) (trim_percent : ℚ) : ℚ :=
  meshMaxY m - (meshMaxY m - meshMinY m) * trim_percent

/-- The source's `vertex_inside` marking list: one boolean per vertex,
true iff the vertex lies inside the inset box (boundary inclusive):
`new_min_x <= x <= new_max_x and new_min_y <= y <= new_max_y`. -/
def vertexInsideList (m : Mesh) (trim_percent : ℚ) : List Bool :=
  (chunks3 m.v).map (fun t =>
    decide (trimMinX m trim_percent ≤ t.1 ∧ t.1 ≤ trimMaxX m trim_percent ∧
            trimMinY m trim_percent ≤ t.2.1 ∧ t.2.1 ≤ trimMaxY m trim_percent))

/-- The face filtering loop of `trim_edges`: keep a face triple iff all
three of its vertex indices are marked inside. -/
def trimFaces (inside : ℤ → Bool) : List ℤ → List ℤ
  | a :: b :: c :: rest =>
      if inside a && inside b && inside c then
        a :: b :: c :: trimFaces inside rest
      else
        trimFaces inside rest
  | _ => []

/-- The geometric per-index inside test: index `a` is marked inside iff
vertex number `a` of the mesh exists and lies within the inset box
(inclusive).  Equal to the marking-list lookup `vertex_inside[a]`. -/
def vertexInInset (m : Mesh) (trim_percent : ℚ) (a : ℤ) : Bool :=
  match (chunks3 m.v)[a.toNat]? with
  | some t =>
      decide (trimMinX m trim_percent ≤ t.1 ∧ t.1 ≤ trimMaxX m trim_percent ∧
              trimMinY m trim_percent ≤ t.2.1 ∧ t.2.1 ≤ trimMaxY m trim_percent)
  | none => false

/-- `trim_edges`: compute X/Y bounds, inset them by `trim_percent` of the
extent per axis, mark vertices inside the inset box, and keep only faces
all of whose vertices are marked inside.  Vertices are kept untouched.
After filtering, the source prints a removed-face percentage whose divisor
`num_faces_original = len(faces) // 3` is unguarded: when it is zero the
operation dies with `ZeroDivisionError` and writes no output. -/
def trim_edges (m : Mesh) (trim_percent : ℚ) : Except TrimError Mesh :=
  let inside : ℤ → Bool := fun a =>
    ((vertexInsideList m trim_percent).getD a.toNat false)
  let newFaces := trimFaces inside m.f
  if m.f.length / 3 = 0 then
    Except.error TrimError.zeroDivisionError
  else
    Except.ok { v := m.v, f := newFaces }

/-! ## EdgeSmoother (`smooth_edges`) -/

/-- Failure outcome of `smooth_edges`.  When no interior vertex exists the
source prints "No interior vertices found!" and returns the input path
without computing or writing any output mesh; this abort-without-output is
modelled as the `noInteriorDataError` outcome. -/
inductive SmoothError where
  | noInteriorDataError
  deriving DecidableEq, Repr

/-- The elevations of interior vertices: vertices strictly inside the box
inset by `(edge_x, edge_y)` whose elevation is positive, in vertex order.
Mirrors the `interior_elevations` list of the source. -/
def interiorElevations (m : Mesh) (edge_distance : ℚ) : List ℚ :=
  let edgeX := (meshMaxX m - meshMinX m) * edge_distance
  let edgeY := (meshMaxY m - meshMinY m) * edge_distance
  ((chunks3 m.v).filter (fun t =>
      decide (meshMinX m + edgeX < t.1 ∧ t.1 < meshMaxX m - edgeX ∧
              meshMinY m + edgeY < t.2.1 ∧ t.2.1 < meshMaxY m - edgeY ∧
              0 < t.2.2))).map (fun t => t.2.2)

/-- Python's `min` over a nonempty list; the `0` default for an empty list
is never reached in the source (guarded by the interior-emptiness check). -/
def listMin : List ℚ → ℚ
  | [] => 0
  | a :: rest => rest.foldl min a

/-- Python's `max` over a nonempty list, with the same unreachable default. -/
def listMax : List ℚ → ℚ
  | [] => 0
  | a :: rest => rest.foldl max a

/-- The mean of a list of elevations: `sum(l) / len(l)`. -/
def avgElevation (l : List ℚ) : ℚ := l.sum / (l.length : ℚ)

/-- The normalized minimum distance of point (x, y) from the four mesh
edges, in units of the edge-zone width: `0` at an outer edge, `1` at the
inner edge-zone boundary; an axis of zero edge width contributes `1`
(the source's `... if edge_x > 0 else 1`). -/
def meshMinDist (m : Mesh) (edge_distance : ℚ) (x y : ℚ) : ℚ :=
  let edgeX := (meshMaxX m - meshMinX m) * edge_distance
  let edgeY := (meshMaxY m - meshMinY m) * edge_distance
  let distFromLeft := if 0 < edgeX then (x - meshMinX m) / edgeX else 1
  let distFromRight := if 0 < edgeX then (meshMaxX m - x) / edgeX else 1
  let distFromBottom := if 0 < edgeY then (y - meshMinY m) / edgeY else 1
  let distFromTop := if 0 < edgeY then (meshMaxY m - y) / edgeY else 1
  min (min (min distFromLeft distFromRight) distFromBottom) distFromTop

/-- The elevation-update loop of `smooth_edges`, written as a pure map over
the flat vertex list: each (x, y, z) triple keeps its x and y and its z is
passed through `f x y z` (the source writes only `vertices[i + 2]`). -/
def smoothFlat (f : ℚ → ℚ → ℚ → ℚ) : List ℚ → List ℚ
  | x :: y :: z :: rest => x :: y :: f x y z :: smoothFlat f rest
  | rest => rest

/-- The per-vertex elevation update of `smooth_edges`.  A vertex in the
edge zone (`min_dist < 1`) has its elevation replaced outright with the
interior average when it is non-positive or a gross outlier
(`z < min_interior * 0.8 or z > max_interior * 1.2`), and otherwise
blended: `z + (avg - z) * smooth_strength * (1 - min_dist)`.  A vertex
outside the edge zone keeps its elevation. -/
def smoothZfun (m : Mesh) (edge_distance smooth_strength : ℚ)
    (x y z : ℚ) : ℚ :=
  if meshMinDist m edge_distance x y < 1 then
    if z ≤ 0 ∨ z < listMin (interiorElevations m edge_distance) * (8 / 10) ∨
        listMax (interiorElevations m edge_distance) * (12 / 10) < z then
      avgElevation (interiorElevations m edge_distance)
    else
      z + (avgElevation (interiorElevations m edge_distance) - z) *
            smooth_strength * (1 - meshMinDist m edge_distance x y)
  else z

/-- `smooth_edges`: compute bounds and the edge-zone widths, collect the
interior elevations (aborting when there are none), and apply the
per-vertex elevation update `smoothZfun` to every vertex triple.
X and Y coordinates and the face list pass through unchanged. -/
def smooth_edges (m : Mesh) (edge_distance smooth_strength : ℚ) :
    Except SmoothError Mesh :=
  if (interiorElevations m edge_distance).isEmpty then
    Except.error SmoothError.noInteriorDataError
  else
    Except.ok { v := smoothFlat (smoothZfun m edge_distance smooth_strength) m.v,
                f := m.f }

/-! ## MeshExporter (`json_to_obj`) and MeshImporter (`obj_to_json`) -/

/-- One line of an OBJ file, as the importer's line classifier sees it:
a vertex line `v x y z`, a face line `f i j k` carrying 1-based indices
(any `/tex/normal` suffixes already stripped), or any other line (header
comments, blank lines), which the importer ignores. -/
inductive ObjLine where
  | comment : ObjLine
  | vline (x y z : ℚ) : ObjLine
  | fline (a b c : ℤ) : ObjLine
  deriving DecidableEq, Repr

/-- Failure outcome of `json_to_obj`: the `ValueError` raised when the
`triangles` key is missing or the vertex list is empty. -/
inductive ExportError where
  | invalidMesh
  deriving DecidableEq, Repr

/-- The OBJ lines written by the exporter: a comment header, then one
`v x y z` line per vertex triple in original order, then one
`f (a+1) (b+1) (c+1)` line per face triple (OBJ indices are 1-based). -/
def objLinesOf (m : Mesh) : List ObjLine :=
  ObjLine.comment ::
    ((chunks3 m.v).map (fun t => ObjLine.vline t.1 t.2.1 t.2.2) ++
     (chunks3 m.f).map (fun t => ObjLine.fline (t.1 + 1) (t.2.1 + 1) (t.2.2 + 1)))

/-- `json_to_obj`: fails when the vertex list is empty (the source raises
`ValueError`), otherwise emits the OBJ lines of the mesh. -/
def json_to_obj (m : Mesh) : Except ExportError (List ObjLine) :=
  if m.v.isEmpty then
    Except.error ExportError.invalidMesh
  else
    Except.ok (objLinesOf m)

/-- The importer's vertex-collecting pass: every `v x y z` line contributes
its three coordinates, in file order; other lines are skipped. -/
def parseVerts : List ObjLine → List ℚ
  | [] => []
  | ObjLine.vline x y z :: rest => x :: y :: z :: parseVerts rest
  | ObjLine.comment :: rest => parseVerts rest
  | ObjLine.fline _ _ _ :: rest => parseVerts rest

/-- The importer's face-collecting pass: every `f i j k` line contributes
its three indices converted to 0-based (`int(...) - 1`); other lines are
skipped. -/
def parseFaces : List ObjLine → List ℤ
  | [] => []
  | ObjLine.fline a b c :: rest => (a - 1) :: (b - 1) :: (c - 1) :: parseFaces rest
  | ObjLine.comment :: rest => parseFaces rest
  | ObjLine.vline _ _ _ :: rest => parseFaces rest

/-- The importer's positional-drift scan: the maximum of `|Δx|` and `|Δy|`
over the vertex triples present in both flattened lists (the source loops
to `min(len(vertices), len(original_vertices))`), starting from `0`. -/
def maxXYdiff : List ℚ → List ℚ → ℚ
  | x1 :: y1 :: _ :: r1, x2 :: y2 :: _ :: r2 =>
      max (maxXYdiff r1 r2) (max |x1 - x2| |y1 - y2|)
  | _, _ => 0

/-- Failure outcomes of `obj_to_json`: the topology-mismatch abort (vertex
count and face count both diverge from the reference and the caller does
not confirm) and the geo-alignment abort (horizontal drift above tolerance
and the caller does not confirm).  Both are `sys.exit(1)` paths in the
source, reached when the interactive prompt is answered with anything but
`y`. -/
inductive ImportError where
  | topologyMismatchError
  | geoAlignmentWarning
  deriving DecidableEq, Repr

/-- The drift-validation tail of `obj_to_json`: abort with
`geoAlignmentWarning` when `max(|Δx|, |Δy|) > 0.001` and `confirm_geo` is
false; otherwise produce the output mesh from the parsed vertices and the
resolved face list. -/
def geoChecked (vertices : List ℚ) (ref : Mesh) (confirm_geo : Bool)
    (faces : List ℤ) : Except ImportError Mesh :=
  if maxXYdiff vertices ref.v > 1 / 1000 ∧ confirm_geo = false then
    Except.error ImportError.geoAlignmentWarning
  else
    Except.ok { v := vertices, f := faces }

/-- `obj_to_json`: parse the OBJ lines, then resolve the face list against
the reference mesh `ref` — reference faces when the vertex counts match,
parsed faces otherwise, aborting with `topologyMismatchError` when the
face counts also differ and `confirm_topology` is false — and finally
run the drift validation `geoChecked`. -/
def obj_to_json (obj : List ObjLine) (ref : Mesh)
    (confirm_topology confirm_geo : Bool) : Except ImportError Mesh :=
  if (parseVerts obj).length / 3 ≠ ref.v.length / 3 then
    if (parseFaces obj).length ≠ ref.f.length then
      if confirm_topology then
        geoChecked (parseVerts obj) ref confirm_geo (parseFaces obj)
      else Except.error ImportError.topologyMismatchError
    else geoChecked (parseVerts obj) ref confirm_geo (parseFaces obj)
  else geoChecked (parseVerts obj) ref confirm_geo ref.f

/-! ## Helper lemmas about the list-level building blocks -/

theorem chunks3_length {α : Type} : ∀ l : List α, (chunks3 l).length = l.length / 3
  | [] => by simp [chunks3]
  | [_] => by simp [chunks3]
  | [_, _] => by simp [chunks3]
  | _ :: _ :: _ :: rest => by
      simp only [chunks3, List.length_cons, chunks3_length rest]
      omega

theorem flatten3_chunks3 {α : Type} :
    ∀ l : List α, 3 ∣ l.length → flatten3 (chunks3 l) = l
  | [], _ => rfl
  | [_], h => by simp only [List.length_cons, List.length_nil] at h; omega
  | [_, _], h => by simp only [List.length_cons, List.length_nil] at h; omega
  | a :: b :: c :: rest, h => by
      have hr : 3 ∣ rest.length := by
        simp only [List.length_cons] at h
        omega
      simp only [chunks3, flatten3, flatten3_chunks3 rest hr]

theorem mem_of_mem_chunks3 {α : Type} :
    ∀ (l : List α) (t : α × α × α), t ∈ chunks3 l →
      t.1 ∈ l ∧ t.2.1 ∈ l ∧ t.2.2 ∈ l
  | [], t, h => absurd h (List.not_mem_nil t)
  | [_], t, h => absurd h (List.not_mem_nil t)
  | [_, _], t, h => absurd h (List.not_mem_nil t)
  | a :: b :: c :: rest, t, h => by
      rcases List.mem_cons.mp h with rfl | h2
      · exact ⟨List.mem_cons_self .., by simp, by simp⟩
      · obtain ⟨h3, h4, h5⟩ := mem_of_mem_chunks3 rest t h2
        exact ⟨by simp [h3], by simp [h4], by simp [h5]⟩

theorem smoothFlat_length (f : ℚ → ℚ → ℚ → ℚ) :
    ∀ l : List ℚ, (smoothFlat f l).length = l.length
  | [] => rfl
  | [_] => rfl
  | [_, _] => rfl
  | x :: y :: z :: rest => by
      simp only [smoothFlat, List.length_cons, smoothFlat_length f rest]

theorem chunks3_smoothFlat (f : ℚ → ℚ → ℚ → ℚ) :
    ∀ l : List ℚ,
      chunks3 (smoothFlat f l) =
        (chunks3 l).map (fun t => (t.1, t.2.1, f t.1 t.2.1 t.2.2))
  | [] => rfl
  | [_] => rfl
  | [_, _] => rfl
  | x :: y :: z :: rest => by
      simp only [smoothFlat, chunks3, List.map_cons, chunks3_smoothFlat f rest]

theorem trimFaces_eq_filter (g : ℤ → Bool) :
    ∀ l : List ℤ,
      trimFaces g l =
        flatten3 ((chunks3 l).filter (fun t => g t.1 && g t.2.1 && g t.2.2))
  | [] => rfl
  | [_] => rfl
  | [_, _] => rfl
  | a :: b :: c :: rest => by
      by_cases h : (g a && g b && g c) = true
      · simp [trimFaces, chunks3, List.filter_cons, h, flatten3,
          trimFaces_eq_filter g rest]
      · simp [trimFaces, chunks3, List.filter_cons, h,
          trimFaces_eq_filter g rest]

theorem getD_vertexInsideList (m : Mesh) (t : ℚ) (a : ℤ) :
    (vertexInsideList m t).getD a.toNat false = vertexInInset m t a := by
  unfold vertexInsideList vertexInInset
  rw [List.getD_eq_getElem?_getD]
  simp only [List.getElem?_map]
  cases (chunks3 m.v)[a.toNat]? <;> rfl

theorem foldlMin_le_init :
    ∀ (l : List ℚ) (init : WithTop ℚ),
      l.foldl (fun m a => min m (a : WithTop ℚ)) init ≤ init
  | [], _ => le_refl _
  | b :: rest, init =>
      le_trans (foldlMin_le_init rest (min init (b : WithTop ℚ))) (min_le_left _ _)

theorem foldlMin_le_mem :
    ∀ (l : List ℚ) (init : WithTop ℚ) (a : ℚ), a ∈ l →
      l.foldl (fun m x => min m (x : WithTop ℚ)) init ≤ (a : WithTop ℚ)
  | [], _, a, h => absurd h (List.not_mem_nil a)
  | b :: rest, init, a, h => by
      rcases List.mem_cons.mp h with rfl | h2
      · exact le_trans (foldlMin_le_init rest (min init (a : WithTop ℚ)))
          (min_le_right _ _)
      · exact foldlMin_le_mem rest (min init (b : WithTop ℚ)) a h2

theorem init_le_foldlMax :
    ∀ (l : List ℚ) (init : WithBot ℚ),
      init ≤ l.foldl (fun m a => max m (a : WithBot ℚ)) init
  | [], _ => le_refl _
  | b :: rest, init =>
      le_trans (le_max_left _ _) (init_le_foldlMax rest (max init (b : WithBot ℚ)))

theorem mem_le_foldlMax :
    ∀ (l : List ℚ) (init : WithBot ℚ) (a : ℚ), a ∈ l →
      (a : WithBot ℚ) ≤ l.foldl (fun m x => max m (x : WithBot ℚ)) init
  | [], _, a, h => absurd h (List.not_mem_nil a)
  | b :: rest, init, a, h => by
      rcases List.mem_cons.mp h with rfl | h2
      · exact le_trans (le_max_right _ _)
          (init_le_foldlMax rest (max init (a : WithBot ℚ)))
      · exact mem_le_foldlMax rest (max init (b : WithBot ℚ)) a h2

theorem untop'_foldMin_le (l : List ℚ) (a : ℚ) (h : a ∈ l) :
    (foldMin l).untop' 0 ≤ a := by
  have h1 : foldMin l ≤ (a : WithTop ℚ) := foldlMin_le_mem l ⊤ a h
  cases hm : foldMin l with
  | top => rw [hm] at h1; exact absurd h1 (by simp)
  | coe q =>
      rw [hm] at h1
      simpa [WithTop.untop'] using WithTop.coe_le_coe.mp h1

theorem le_unbot'_foldMax (l : List ℚ) (a : ℚ) (h : a ∈ l) :
    a ≤ (foldMax l).unbot' 0 := by
  have h1 : (a : WithBot ℚ) ≤ foldMax l := mem_le_foldlMax l ⊥ a h
  cases hm : foldMax l with
  | bot => rw [hm] at h1; exact absurd h1 (by simp)
  | coe q =>
      rw [hm] at h1
      simpa [WithBot.unbot'] using WithBot.coe_le_coe.mp h1

theorem parseVerts_append :
    ∀ l1 l2 : List ObjLine, parseVerts (l1 ++ l2) = parseVerts l1 ++ parseVerts l2
  | [], l2 => rfl
  | ObjLine.comment :: r, l2 => by
      simp [parseVerts, parseVerts_append r l2]
  | ObjLine.vline x y z :: r, l2 => by
      simp [parseVerts, parseVerts_append r l2]
  | ObjLine.fline a b c :: r, l2 => by
      simp [parseVerts, parseVerts_append r l2]

theorem parseFaces_append :
    ∀ l1 l2 : List ObjLine, parseFaces (l1 ++ l2) = parseFaces l1 ++ parseFaces l2
  | [], l2 => rfl
  | ObjLine.comment :: r, l2 => by
      simp [parseFaces, parseFaces_append r l2]
  | ObjLine.vline x y z :: r, l2 => by
      simp [parseFaces, parseFaces_append r l2]
  | ObjLine.fline a b c :: r, l2 => by
      simp [parseFaces, parseFaces_append r l2]

theorem parseVerts_vlines :
    ∀ ts : List (ℚ × ℚ × ℚ),
      parseVerts (ts.map (fun t => ObjLine.vline t.1 t.2.1 t.2.2)) = flatten3 ts
  | [] => rfl
  | ⟨x, y, z⟩ :: r => by simp [parseVerts, flatten3, parseVerts_vlines r]

theorem parseVerts_flines :
    ∀ ts : List (ℤ × ℤ × ℤ),
      parseVerts (ts.map (fun t => ObjLine.fline (t.1 + 1) (t.2.1 + 1) (t.2.2 + 1))) = []
  | [] => rfl
  | ⟨a, b, c⟩ :: r => by simp [parseVerts, parseVerts_flines r]

theorem parseFaces_vlines :
    ∀ ts : List (ℚ × ℚ × ℚ),
      parseFaces (ts.map (fun t => ObjLine.vline t.1 t.2.1 t.2.2)) = []
  | [] => rfl
  | ⟨x, y, z⟩ :: r => by simp [parseFaces, parseFaces_vlines r]

theorem parseFaces_flines :
    ∀ ts : List (ℤ × ℤ × ℤ),
      parseFaces (ts.map (fun t => ObjLine.fline (t.1 + 1) (t.2.1 + 1) (t.2.2 + 1))) = flatten3 ts
  | [] => rfl
  | ⟨a, b, c⟩ :: r => by simp [parseFaces, flatten3, parseFaces_flines r]

theorem parseFaces_length : ∀ l : List ObjLine, 3 ∣ (parseFaces l).length
  | [] => ⟨0, rfl⟩
  | ObjLine.comment :: r => parseFaces_length r
  | ObjLine.vline _ _ _ :: r => parseFaces_length r
  | ObjLine.fline a b c :: r => by
      have h := parseFaces_length r
      simp only [parseFaces, List.length_cons]
      omega

theorem maxXYdiff_self : ∀ l : List ℚ, maxXYdiff l l = 0
  | [] => rfl
  | [_] => rfl
  | [_, _] => rfl
  | x :: y :: z :: r => by
      simp [maxXYdiff, maxXYdiff_self r]

theorem geoChecked_ok (vertices : List ℚ) (ref : Mesh) (cG : Bool)
    (faces : List ℤ) (m' : Mesh)
    (h : geoChecked vertices ref cG faces = Except.ok m') :
    m' = ⟨vertices, faces⟩ := by
  unfold geoChecked at h
  split at h
  · exact absurd h (by simp)
  · exact (Except.ok.inj h).symm

theorem smooth_edges_ok (m : Mesh) (d s : ℚ) (m' : Mesh)
    (hok : smooth_edges m d s = Except.ok m') :
    m' = ⟨smoothFlat (smoothZfun m d s) m.v, m.f⟩ := by
  unfold smooth_edges at hok
  split at hok
  · exact absurd hok (by simp)
  · exact (Except.ok.inj hok).symm

/-! ## Claim theorems -/

/-- The 2-by-2 unit-square example mesh of the specification:
four vertices at elevation 1 forming two triangles. -/
def squareMesh : Mesh :=
  ⟨[0, 0, 1, 1, 0, 1, 0, 1, 1, 1, 1, 1], [0, 1, 2, 1, 3, 2]⟩

/-- A five-vertex mesh over a 10-by-10 square: four corner vertices and one
center vertex, all at elevation 10, with no faces.  With edge fraction
`1/10` only the center vertex is interior. -/
def plateauMesh : Mesh :=
  ⟨[0, 0, 10, 10, 0, 10, 0, 10, 10, 10, 10, 10, 5, 5, 10], []⟩

/-- Claim C1: whenever the interior vertex set is empty (no vertex strictly
inside the inset box with positive elevation), `smooth_edges` aborts with
`NoInteriorDataError` and produces no output mesh. -/
theorem smooth_edges_fails_without_interior (m : Mesh) (d s : ℚ)
    (h : interiorElevations m d = []) :
    smooth_edges m d s = Except.error SmoothError.noInteriorDataError := by
  unfold smooth_edges
  rw [h]
  rfl

/-- Witness for C1: a one-vertex mesh has degenerate bounds, so its
interior set is empty and smoothing aborts. -/
theorem smooth_edges_fails_without_interior_witness :
    interiorElevations ⟨[0, 0, 1], []⟩ (1 / 20) = [] ∧
    smooth_edges ⟨[0, 0, 1], []⟩ (1 / 20) (1 / 2) =
      Except.error SmoothError.noInteriorDataError :=
  ⟨by with_unfolding_all decide,
   smooth_edges_fails_without_interior ⟨[0, 0, 1], []⟩ (1 / 20) (1 / 2)
     (by with_unfolding_all decide)⟩

/-- Claim C2 (evaluation at the failing input): on an empty vertex
sequence the source's bound folds return the untouched inverted infinities
(`min = +inf`, `max = -inf`) and no `EmptyMeshError` exists anywhere:
`trim_edges` proceeds and then dies in its percentage diagnostic with
`ZeroDivisionError`, and `smooth_edges` proceeds to the interior scan and
aborts only because the interior set is empty. -/
theorem empty_mesh_inverted_bounds_no_emptyMeshError :
    foldMin (xsOf ([] : List ℚ)) = ⊤ ∧ foldMax (xsOf ([] : List ℚ)) = ⊥ ∧
    foldMin (ysOf ([] : List ℚ)) = ⊤ ∧ foldMax (ysOf ([] : List ℚ)) = ⊥ ∧
    trim_edges ⟨[], []⟩ (1 / 50) = Except.error TrimError.zeroDivisionError ∧
    smooth_edges ⟨[], []⟩ (1 / 20) (1 / 2) =
      Except.error SmoothError.noInteriorDataError := by
  refine ⟨rfl, rfl, rfl, rfl, ?_, ?_⟩ <;> with_unfolding_all decide

/-- Claim C10: on a valid non-empty mesh whose face list is empty, the
face filtering itself succeeds (it yields the empty face list), yet
`trim_edges` aborts with `ZeroDivisionError` because the removed-face
percentage diagnostic divides by `num_faces_original = 0`. -/
theorem trim_edges_zero_division_diagnostic :
    trimFaces (fun a =>
      ((vertexInsideList ⟨[0, 0, 5], []⟩ (1 / 50)).getD a.toNat false))
      ([] : List ℤ) = [] ∧
    trim_edges ⟨[0, 0, 5], []⟩ (1 / 50) =
      Except.error TrimError.zeroDivisionError :=
  ⟨rfl, by with_unfolding_all decide⟩

/-- Counterexample to C6 as stated: a valid mesh with an empty face list
and `trimFraction = 1/50 ∈ [0, 0.5)` makes `trim_edges` fail with
`ZeroDivisionError` instead of outputting a mesh. -/
theorem trim_edges_not_total_counterexample :
    trim_edges ⟨[0, 0, 2], []⟩ (1 / 50) =
      Except.error TrimError.zeroDivisionError := by
  with_unfolding_all decide

/-- Counterexample to C7 as stated: on a valid mesh with an empty face
list, `trim_edges` with `trimFraction = 0` fails with `ZeroDivisionError`
instead of returning the mesh unchanged. -/
theorem trim_edges_zero_not_identity_counterexample :
    trim_edges ⟨[0, 0, 1], []⟩ 0 =
      Except.error TrimError.zeroDivisionError := by
  with_unfolding_all decide

/-- Claim C6 (amended with a nonempty face list, forced by the unguarded
diagnostic divisor): for every valid mesh with at least one face and any
`trimFraction` in `[0, 1/2)`, `trim_edges` outputs a mesh whose vertex
list is identical to the input's and whose face list is, in original
order, exactly the input faces all three of whose vertices lie within the
inset bounding box (boundary inclusive); no vertex is removed or
reindexed. -/
theorem trim_edges_keeps_vertices_filters_faces (m : Mesh) (t : ℚ)
    (h0 : 0 ≤ t) (h1 : t < 1 / 2)
    (hv : 3 ∣ m.v.length) (hf : 3 ∣ m.f.length) (hne : m.f ≠ []) :
    ∃ m', trim_edges m t = Except.ok m' ∧ m'.v = m.v ∧
      m'.f = flatten3 ((chunks3 m.f).filter (fun tr =>
        vertexInInset m t tr.1 && vertexInInset m t tr.2.1 &&
        vertexInInset m t tr.2.2)) := by
  have hlen : ¬ m.f.length / 3 = 0 := by
    have h2 : m.f.length ≠ 0 := fun hz => hne (List.length_eq_zero.mp hz)
    omega
  refine ⟨⟨m.v, trimFaces (fun a =>
    ((vertexInsideList m t).getD a.toNat false)) m.f⟩, ?_, rfl, ?_⟩
  · unfold trim_edges
    rw [if_neg hlen]
  · show trimFaces _ m.f = _
    rw [trimFaces_eq_filter]
    simp only [getD_vertexInsideList]

/-- Witness for C6: trimming the unit-square mesh by 2 percent removes
both of its corner-touching triangles while keeping every vertex. -/
theorem trim_edges_keeps_vertices_filters_faces_witness :
    (0 ≤ (1 / 50 : ℚ)) ∧ ((1 / 50 : ℚ) < 1 / 2) ∧
    3 ∣ squareMesh.v.length ∧ 3 ∣ squareMesh.f.length ∧ squareMesh.f ≠ [] ∧
    (∃ m', trim_edges squareMesh (1 / 50) = Except.ok m' ∧
      m'.v = squareMesh.v ∧
      m'.f = flatten3 ((chunks3 squareMesh.f).filter (fun tr =>
        vertexInInset squareMesh (1 / 50) tr.1 &&
        vertexInInset squareMesh (1 / 50) tr.2.1 &&
        vertexInInset squareMesh (1 / 50) tr.2.2))) :=
  ⟨by with_unfolding_all decide, by with_unfolding_all decide,
   by decide, by decide, by decide,
   trim_edges_keeps_vertices_filters_faces squareMesh (1 / 50)
     (by with_unfolding_all decide) (by with_unfolding_all decide)
     (by decide) (by decide) (by decide)⟩

/-- Claim C7 (amended with a nonempty face list, forced by the unguarded
diagnostic divisor): for every valid mesh with at least one face,
`trim_edges` with `trimFraction = 0` is the identity: the inset box
degenerates to the bounding box itself, every vertex is marked inside, and
both the vertex list and the face list pass through unchanged. -/
theorem trim_edges_zero_is_identity (m : Mesh)
    (hv : 3 ∣ m.v.length) (hf : 3 ∣ m.f.length)
    (hidx : ∀ a ∈ m.f, 0 ≤ a ∧ a.toNat < m.v.length / 3) (hne : m.f ≠ []) :
    trim_edges m 0 = Except.ok m := by
  have hlen : ¬ m.f.length / 3 = 0 := by
    have h2 : m.f.length ≠ 0 := fun hz => hne (List.length_eq_zero.mp hz)
    omega
  have hminx : trimMinX m 0 = meshMinX m := by simp [trimMinX]
  have hmaxx : trimMaxX m 0 = meshMaxX m := by simp [trimMaxX]
  have hminy : trimMinY m 0 = meshMinY m := by simp [trimMinY]
  have hmaxy : trimMaxY m 0 = meshMaxY m := by simp [trimMaxY]
  have hmark : ∀ a ∈ m.f, ((vertexInsideList m 0).getD a.toNat false) = true := by
    intro a ha
    rw [getD_vertexInsideList]
    obtain ⟨-, hlt⟩ := hidx a ha
    rw [← chunks3_length] at hlt
    have hsome : (chunks3 m.v)[a.toNat]? = some ((chunks3 m.v)[a.toNat]) :=
      List.getElem?_eq_getElem hlt
    have hmem : (chunks3 m.v)[a.toNat] ∈ chunks3 m.v := List.getElem_mem hlt
    unfold vertexInInset
    rw [hsome]
    simp only [decide_eq_true_eq, hminx, hmaxx, hminy, hmaxy]
    refine ⟨?_, ?_, ?_, ?_⟩
    · exact untop'_foldMin_le _ _ (List.mem_map_of_mem (fun t => t.1) hmem)
    · exact le_unbot'_foldMax _ _ (List.mem_map_of_mem (fun t => t.1) hmem)
    · exact untop'_foldMin_le _ _ (List.mem_map_of_mem (fun t => t.2.1) hmem)
    · exact le_unbot'_foldMax _ _ (List.mem_map_of_mem (fun t => t.2.1) hmem)
  have hfaces : trimFaces (fun a =>
      ((vertexInsideList m 0).getD a.toNat false)) m.f = m.f := by
    rw [trimFaces_eq_filter]
    have hfilter : (chunks3 m.f).filter (fun tr =>
        ((vertexInsideList m 0).getD tr.1.toNat false) &&
        ((vertexInsideList m 0).getD tr.2.1.toNat false) &&
        ((vertexInsideList m 0).getD tr.2.2.toNat false)) = chunks3 m.f := by
      apply List.filter_eq_self.mpr
      intro tr htr
      obtain ⟨h3, h4, h5⟩ := mem_of_mem_chunks3 m.f tr htr
      simp only [hmark tr.1 h3, hmark tr.2.1 h4, hmark tr.2.2 h5, Bool.and_self]
    rw [hfilter, flatten3_chunks3 _ hf]
  unfold trim_edges
  rw [if_neg hlen, hfaces]

/-- Witness for C7: `trim_edges` with trim fraction 0 returns the
unit-square mesh unchanged. -/
theorem trim_edges_zero_is_identity_witness :
    3 ∣ squareMesh.v.length ∧ 3 ∣ squareMesh.f.length ∧
    (∀ a ∈ squareMesh.f, 0 ≤ a ∧ a.toNat < squareMesh.v.length / 3) ∧
    squareMesh.f ≠ [] ∧
    trim_edges squareMesh 0 = Except.ok squareMesh :=
  ⟨by decide, by decide, by decide, by decide,
   trim_edges_zero_is_identity squareMesh (by decide) (by decide)
     (by decide) (by decide)⟩

/-- Claim C8: whenever `smooth_edges` produces an output mesh, the face
list is unchanged, the vertex count and order are preserved, every
vertex keeps its X and Y coordinates, and every vertex outside the edge
zone (normalized minimum edge distance at least 1) keeps its Z coordinate
as well. -/
theorem smooth_edges_frame (m : Mesh) (d s : ℚ) (m' : Mesh)
    (hv : 3 ∣ m.v.length)
    (hok : smooth_edges m d s = Except.ok m') :
    m'.f = m.f ∧ m'.v.length = m.v.length ∧
    ∀ (i : ℕ) (x y z : ℚ), (chunks3 m.v)[i]? = some (x, y, z) →
      (∃ zNew, (chunks3 m'.v)[i]? = some (x, y, zNew)) ∧
      (1 ≤ meshMinDist m d x y → (chunks3 m'.v)[i]? = some (x, y, z)) := by
  have hm' := smooth_edges_ok m d s m' hok
  subst hm'
  refine ⟨rfl, smoothFlat_length _ _, ?_⟩
  intro i x y z hi
  have hmap : (chunks3 (smoothFlat (smoothZfun m d s) m.v))[i]? =
      some (x, y, smoothZfun m d s x y z) := by
    rw [chunks3_smoothFlat]
    simp [hi]
  refine ⟨⟨smoothZfun m d s x y z, hmap⟩, ?_⟩
  intro hge
  have hz : smoothZfun m d s x y z = z := by
    unfold smoothZfun
    rw [if_neg (not_lt.mpr hge)]
  show (chunks3 (smoothFlat (smoothZfun m d s) m.v))[i]? = some (x, y, z)
  rw [hmap, hz]

/-- Witness for C8: smoothing the plateau mesh succeeds and its interior
center vertex (5, 5, 10), at normalized edge distance 5, keeps its
elevation. -/
theorem smooth_edges_frame_witness :
    3 ∣ plateauMesh.v.length ∧
    smooth_edges plateauMesh (1 / 10) (1 / 2) = Except.ok plateauMesh ∧
    (chunks3 plateauMesh.v)[4]? = some (5, 5, 10) ∧
    1 ≤ meshMinDist plateauMesh (1 / 10) 5 5 ∧
    (chunks3 plateauMesh.v)[4]? = some (5, 5, 10) :=
  ⟨by decide, by with_unfolding_all decide, by with_unfolding_all decide,
   by with_unfolding_all decide,
   ((smooth_edges_frame plateauMesh (1 / 10) (1 / 2) plateauMesh
       (by decide) (by with_unfolding_all decide)).2.2 4 5 5 10
     (by with_unfolding_all decide)).2 (by with_unfolding_all decide)⟩

/-- Claim C9: whenever `smooth_edges` produces an output mesh, a vertex
(x, y, z) in the edge zone (normalized minimum edge distance below 1)
gets the elevation `avg` outright when `z ≤ 0`, `z < 0.8 * minInterior`
or `z > 1.2 * maxInterior`, and otherwise the blend
`z + (avg - z) * smoothStrength * (1 - minDist)`, where `minInterior`,
`maxInterior` and `avg` are the minimum, maximum and mean elevation over
the interior vertices. -/
theorem smooth_edges_edge_zone_formula (m : Mesh) (d s : ℚ) (m' : Mesh)
    (hv : 3 ∣ m.v.length)
    (hok : smooth_edges m d s = Except.ok m')
    (i : ℕ) (x y z : ℚ)
    (hi : (chunks3 m.v)[i]? = some (x, y, z))
    (hedge : meshMinDist m d x y < 1) :
    (chunks3 m'.v)[i]? = some (x, y,
      if z ≤ 0 ∨ z < (8 / 10) * listMin (interiorElevations m d) ∨
          (12 / 10) * listMax (interiorElevations m d) < z then
        avgElevation (interiorElevations m d)
      else
        z + (avgElevation (interiorElevations m d) - z) * s *
              (1 - meshMinDist m d x y)) := by
  have hm' := smooth_edges_ok m d s m' hok
  subst hm'
  have hmap : (chunks3 (smoothFlat (smoothZfun m d s) m.v))[i]? =
      some (x, y, smoothZfun m d s x y z) := by
    rw [chunks3_smoothFlat]
    simp [hi]
  show (chunks3 (smoothFlat (smoothZfun m d s) m.v))[i]? = _
  rw [hmap]
  have hzf : smoothZfun m d s x y z =
      if z ≤ 0 ∨ z < (8 / 10) * listMin (interiorElevations m d) ∨
          (12 / 10) * listMax (interiorElevations m d) < z then
        avgElevation (interiorElevations m d)
      else
        z + (avgElevation (interiorElevations m d) - z) * s *
              (1 - meshMinDist m d x y) := by
    unfold smoothZfun
    rw [if_pos hedge]
    simp only [mul_comm (listMin (interiorElevations m d)) ((8 : ℚ) / 10),
      mul_comm (listMax (interiorElevations m d)) ((12 : ℚ) / 10)]
  rw [hzf]

/-- Witness for C9: the corner vertex (0, 0, 10) of the plateau mesh is at
normalized edge distance 0; its elevation is within the interior band, so
it is blended — and with `avg = z = 10` the blend leaves 10. -/
theorem smooth_edges_edge_zone_formula_witness :
    3 ∣ plateauMesh.v.length ∧
    smooth_edges plateauMesh (1 / 10) (1 / 2) = Except.ok plateauMesh ∧
    (chunks3 plateauMesh.v)[0]? = some (0, 0, 10) ∧
    meshMinDist plateauMesh (1 / 10) 0 0 < 1 ∧
    (chunks3 plateauMesh.v)[0]? = some (0, 0,
      if (10 : ℚ) ≤ 0 ∨
          (10 : ℚ) < (8 / 10) * listMin (interiorElevations plateauMesh (1 / 10)) ∨
          (12 / 10) * listMax (interiorElevations plateauMesh (1 / 10)) < (10 : ℚ) then
        avgElevation (interiorElevations plateauMesh (1 / 10))
      else
        10 + (avgElevation (interiorElevations plateauMesh (1 / 10)) - 10) * (1 / 2) *
              (1 - meshMinDist plateauMesh (1 / 10) 0 0)) :=
  ⟨by decide, by with_unfolding_all decide, by with_unfolding_all decide,
   by with_unfolding_all decide,
   smooth_edges_edge_zone_formula plateauMesh (1 / 10) (1 / 2) plateauMesh
     (by decide) (by with_unfolding_all decide) 0 0 0 10
     (by with_unfolding_all decide) (by with_unfolding_all decide)⟩

/-- Claim C3: whenever the importer produces an output mesh, the face list
is resolved by the ordered policy — if the parsed vertex count equals the
reference's, the output faces are exactly the reference's face list; else,
if the parsed face-triple count equals the reference's, the output faces
are exactly the faces parsed from the OBJ. -/
theorem obj_to_json_face_resolution (obj : List ObjLine) (ref : Mesh)
    (cT cG : Bool) (m' : Mesh) (hval : 3 ∣ ref.f.length)
    (hok : obj_to_json obj ref cT cG = Except.ok m') :
    ((parseVerts obj).length / 3 = ref.v.length / 3 → m'.f = ref.f) ∧
    ((parseVerts obj).length / 3 ≠ ref.v.length / 3 →
      (parseFaces obj).length / 3 = ref.f.length / 3 →
      m'.f = parseFaces obj) := by
  constructor
  · intro hveq
    unfold obj_to_json at hok
    rw [if_neg (not_ne_iff.mpr hveq)] at hok
    rw [geoChecked_ok _ _ _ _ _ hok]
  · intro hvne hfeq
    have h3 : 3 ∣ (parseFaces obj).length := parseFaces_length obj
    have hflen : (parseFaces obj).length = ref.f.length := by omega
    unfold obj_to_json at hok
    rw [if_pos hvne, if_neg (not_ne_iff.mpr hflen)] at hok
    rw [geoChecked_ok _ _ _ _ _ hok]

/-- Witness for C3: importing the exported unit-square mesh against itself
matches the reference vertex count, so the reference face list is used. -/
theorem obj_to_json_face_resolution_witness :
    3 ∣ squareMesh.f.length ∧
    obj_to_json (objLinesOf squareMesh) squareMesh false false =
      Except.ok squareMesh ∧
    (((parseVerts (objLinesOf squareMesh)).length / 3 =
        squareMesh.v.length / 3 → squareMesh.f = squareMesh.f) ∧
     ((parseVerts (objLinesOf squareMesh)).length / 3 ≠
        squareMesh.v.length / 3 →
      (parseFaces (objLinesOf squareMesh)).length / 3 =
        squareMesh.f.length / 3 →
      squareMesh.f = parseFaces (objLinesOf squareMesh))) :=
  ⟨by decide, by with_unfolding_all decide,
   obj_to_json_face_resolution (objLinesOf squareMesh) squareMesh
     false false squareMesh (by decide) (by with_unfolding_all decide)⟩

/-- Claim C4: when the parsed vertex count and the parsed face count both
differ from the reference's, the importer signals `TopologyMismatchError`
by default (no confirmation), and it can only produce an output mesh when
the external confirmation was explicitly given. -/
theorem obj_to_json_topology_mismatch (obj : List ObjLine) (ref : Mesh)
    (cG : Bool)
    (h1 : (parseVerts obj).length / 3 ≠ ref.v.length / 3)
    (h2 : (parseFaces obj).length ≠ ref.f.length) :
    obj_to_json obj ref false cG =
      Except.error ImportError.topologyMismatchError ∧
    ∀ (cT : Bool) (m' : Mesh),
      obj_to_json obj ref cT cG = Except.ok m' → cT = true := by
  have herr : obj_to_json obj ref false cG =
      Except.error ImportError.topologyMismatchError := by
    unfold obj_to_json
    rw [if_pos h1, if_pos h2]
    rfl
  refine ⟨herr, ?_⟩
  intro cT m' hok
  cases cT
  · rw [herr] at hok
    exact absurd hok (by simp)
  · rfl

/-- Witness for C4: a one-vertex, zero-face OBJ against the two-triangle
unit-square reference mismatches both counts and is refused. -/
theorem obj_to_json_topology_mismatch_witness :
    (parseVerts [ObjLine.vline 0 0 1]).length / 3 ≠
      squareMesh.v.length / 3 ∧
    (parseFaces [ObjLine.vline 0 0 1]).length ≠ squareMesh.f.length ∧
    (obj_to_json [ObjLine.vline 0 0 1] squareMesh false false =
        Except.error ImportError.topologyMismatchError ∧
     ∀ (cT : Bool) (m' : Mesh),
       obj_to_json [ObjLine.vline 0 0 1] squareMesh cT false =
         Except.ok m' → cT = true) :=
  ⟨by decide, by decide,
   obj_to_json_topology_mismatch [ObjLine.vline 0 0 1] squareMesh false
     (by decide) (by decide)⟩

/-- Claim C5: exporting a valid non-empty mesh to OBJ and importing the
result back against the same mesh as reference succeeds, reproduces the
vertex list exactly (so the vertex count matches and every coordinate is
within any serialization tolerance, 1e-6 included), and yields the
identical face list. -/
theorem export_import_roundtrip (m : Mesh) (cT cG : Bool)
    (hne : m.v ≠ []) (hv : 3 ∣ m.v.length) (hf : 3 ∣ m.f.length) :
    ∃ obj, json_to_obj m = Except.ok obj ∧ parseVerts obj = m.v ∧
      obj_to_json obj m cT cG = Except.ok m := by
  have hpv : parseVerts (objLinesOf m) = m.v := by
    unfold objLinesOf
    show parseVerts (_ ++ _) = m.v
    rw [parseVerts_append, parseVerts_vlines, parseVerts_flines,
      flatten3_chunks3 _ hv, List.append_nil]
  have hpf : parseFaces (objLinesOf m) = m.f := by
    unfold objLinesOf
    show parseFaces (_ ++ _) = m.f
    rw [parseFaces_append, parseFaces_vlines, parseFaces_flines,
      flatten3_chunks3 _ hf, List.nil_append]
  refine ⟨objLinesOf m, ?_, hpv, ?_⟩
  · unfold json_to_obj
    rw [if_neg (by simp [List.isEmpty_iff, hne])]
  · unfold obj_to_json
    rw [if_neg (by rw [hpv]; exact not_ne_iff.mpr rfl)]
    unfold geoChecked
    rw [if_neg (by
      rw [hpv, maxXYdiff_self]
      exact fun h => absurd h.1 (by norm_num))]
    rw [hpv]

/-- Witness for C5: the round-trip applied to the unit-square example
mesh. -/
theorem export_import_roundtrip_witness :
    squareMesh.v ≠ [] ∧ 3 ∣ squareMesh.v.length ∧ 3 ∣ squareMesh.f.length ∧
    (∃ obj, json_to_obj squareMesh = Except.ok obj ∧
      parseVerts obj = squareMesh.v ∧
      obj_to_json obj squareMesh false false = Except.ok squareMesh) :=
  ⟨by decide, by decide, by decide,
   export_import_roundtrip squareMesh false false (by decide) (by decide)
     (by decide)⟩
